import Mathlib

/-!
Shallow embedding of the process-supervision core of the northstar container
runtime, together with the container-table rendering of the nstar CLI.

Sources embedded:
* `src/northstar/src/runtime/process.rs` — the `exit_handle` constructor and the
  `waitpid` watcher: a loop over kernel wait results that classifies each result
  as terminal (`Exited`/`Signaled`), transient (retry), or fatal (abort), and on
  a terminal result delivers the outcome first to the per-process exit handle
  and then to the global runtime event channel.
* `src/nstar/src/pretty.rs` — the `containers` table renderer, which iterates
  the containers stably sorted first by manifest name and then by absence of a
  manifest `init` entry.

The kernel (the sequence of `waitpid(2)` results) is modelled as an explicit
list of responses consumed in order; the two tokio mpsc channels are modelled by
an environment recording whether each receiving side is still alive, and the
watcher's externally visible behaviour is a trace of send events plus a final
run result (completion, or one of the two panic sites of the source).
-/

namespace Northstar

/-- Signal numbers of `nix::sys::signal::Signal`; the watcher treats the signal
value opaquely, so it is embedded as its number. -/
abbrev Signal := Nat

/-- SIGKILL carries signal number 9. -/
def SIGKILL : Signal := 9

/-- `pub type ExitCode = i32;` of process.rs, embedded as an integer. -/
abbrev ExitCode := Int

/-- The `ExitStatus` enum of process.rs: the closed two-variant termination
taxonomy. -/
inductive ExitStatus where
  /-- Process exited with exit code. -/
  | Exit (code : ExitCode)
  /-- Process was terminated by a signal. -/
  | Signaled (signal : Signal)
deriving DecidableEq, Repr

/-- The variants of `nix::sys::wait::WaitStatus` matched by the watcher loop
(the union of results the kernel wait call can return). -/
inductive WaitStatus where
  | Exited (pid : Int) (code : Int)
  | Signaled (pid : Int) (signal : Signal) (coreDump : Bool)
  | Stopped (pid : Int) (signal : Signal)
  | PtraceEvent (pid : Int) (signal : Signal) (event : Int)
  | PtraceSyscall (pid : Int)
  | Continued (pid : Int)
  | StillAlive
deriving DecidableEq, Repr

/-- The errno number of EINTR. -/
def EINTR : Nat := 4

/-- The `nix::Error` type as of nix 0.x: a system errno or one of the
library-side failure variants. -/
inductive NixError where
  | Sys (errno : Nat)
  | InvalidPath
  | InvalidUtf8
  | UnsupportedOperation
deriving DecidableEq, Repr

/-- One result of the kernel wait call: `Result<WaitStatus, nix::Error>`. -/
abbrev WaitResult := Except NixError WaitStatus

/-- What one iteration of the watcher loop decides for a wait result. -/
inductive StepResult where
  /-- A `break` of the loop with a terminal `ExitStatus`. -/
  | terminal (status : ExitStatus)
  /-- A `continue`: retry the wait call. -/
  | retry
  /-- The `panic!` arm: a wait failure other than EINTR. -/
  | fatal (e : NixError)
deriving DecidableEq, Repr

/-- The classification performed by the `match result` in the body of the
`waitpid` loop of process.rs: each arm of the source match, in order.
`Exited`/`Signaled` break with the terminal status; `Stopped`, `PtraceEvent`,
`PtraceSyscall`, `Continued`, `StillAlive` and an `EINTR` error continue; any
other error panics. -/
def classify : WaitResult → StepResult
  | .ok (.Exited _pid code) => .terminal (.Exit code)
  | .ok (.Signaled _pid signal _dump) => .terminal (.Signaled signal)
  | .ok (.Stopped _pid _signal) => .retry
  | .ok (.PtraceEvent _pid _signal _ev) => .retry
  | .ok (.PtraceSyscall _pid) => .retry
  | .ok (.Continued _pid) => .retry
  | .ok .StillAlive => .retry
  | .error e => if e = .Sys EINTR then .retry else .fatal e

/-- Result of running the `loop` of `waitpid` against a finite list of kernel
responses: it either breaks with a terminal status, hits the panic arm, or
exhausts the supplied responses (in the real program it would still be blocked
in the kernel). -/
inductive LoopResult where
  | terminated (status : ExitStatus)
  | panicked (e : NixError)
  | blocked
deriving DecidableEq, Repr

/-- The `let status = loop { ... }` of `waitpid`, consuming the kernel
responses in order. -/
def waitLoop : List WaitResult → LoopResult
  | [] => .blocked
  | r :: rest =>
    match classify r with
    | .terminal status => .terminated status
    | .retry => waitLoop rest
    | .fatal e => .panicked e

/-- The runtime `Event` variant produced by the watcher
(`Event::Exit(name, status)`); the other variants of the runtime event type are
not used by this file of the source. -/
inductive Event where
  | Exit (name : String) (status : ExitStatus)
deriving DecidableEq, Repr

/-- One send attempt of the watcher, with the message and whether it was
actually delivered into the channel (a tokio mpsc send fails iff the receiving
side is gone). -/
inductive SendEvent where
  /-- `exit_handle.blocking_send(status.clone()).ok()` -/
  | exitSend (status : ExitStatus) (delivered : Bool)
  /-- `event_handle.blocking_send(Event::Exit(name, status)).expect(..)` -/
  | eventSend (ev : Event) (delivered : Bool)
deriving DecidableEq, Repr

/-- How a run of the watcher task ends. -/
inductive RunResult where
  /-- The task body ran to completion. -/
  | done
  /-- The responses were exhausted while still waiting. -/
  | blocked
  /-- The `panic!("Failed to waitpid on {}: {}", pid, e)` site, carrying the
  raw pid of the message and the error. -/
  | panickedWait (pid : Int) (e : NixError)
  /-- The `.expect("Internal channel error on main event handle")` site. -/
  | panickedEvent
deriving DecidableEq, Repr

/-- Liveness of the two receiving sides the watcher sends to. -/
structure WatcherEnv where
  /-- Whether the `ExitHandleWait` receiver of the exit handle still exists. -/
  waitReceiverAlive : Bool
  /-- Whether the runtime's main event loop (receiver of `EventTx`) exists. -/
  eventSinkAlive : Bool
deriving DecidableEq, Repr

/-- The `pid as i32` cast of `unistd::Pid::from_raw(pid as i32)` in `waitpid`:
the `u32` value is reinterpreted modulo `2 ^ 32` into the signed 32-bit
range. -/
def pid_from_raw (pid : Nat) : Int :=
  let m : Nat := pid % 2 ^ 32
  if m < 2 ^ 31 then (m : Int) else (m : Int) - 2 ^ 32

/-- The body of the task spawned by `waitpid` of process.rs: run the wait loop,
then deliver the terminal status first to the exit handle (errors discarded by
`.ok()`), then as `Event::Exit(name, status)` to the main event channel (a
failure there panics via `.expect`). Returns the trace of send attempts and how
the run ended. -/
def waitpid (name : String) (pid : Nat) (env : WatcherEnv)
    (responses : List WaitResult) : List SendEvent × RunResult :=
  let rawPid := pid_from_raw pid
  match waitLoop responses with
  | .blocked => ([], .blocked)
  | .panicked e => ([], .panickedWait rawPid e)
  | .terminated status =>
    let toExitHandle := SendEvent.exitSend status env.waitReceiverAlive
    if env.eventSinkAlive then
      ([toExitHandle, .eventSend (.Exit name status) true], .done)
    else
      ([toExitHandle, .eventSend (.Exit name status) false], .panickedEvent)

/-- Whether a send event targets the exit handle. -/
def SendEvent.isExitSend : SendEvent → Bool
  | .exitSend _ _ => true
  | .eventSend _ _ => false

/-- Whether a send event targets the global event channel. -/
def SendEvent.isEventSend : SendEvent → Bool
  | .exitSend _ _ => false
  | .eventSend _ _ => true

/-- Whether a send event was delivered into its channel. -/
def SendEvent.isDelivered : SendEvent → Bool
  | .exitSend _ d => d
  | .eventSend _ d => d

/-- The termination outcome a send event carries. -/
def SendEvent.outcome : SendEvent → ExitStatus
  | .exitSend status _ => status
  | .eventSend (.Exit _ status) _ => status

/-- The tokio mpsc channel backing an exit handle: a bounded buffer. -/
structure MpscChannel (α : Type) where
  capacity : Nat
  buffer : List α
deriving DecidableEq, Repr

/-- The sending half returned by `tokio::sync::mpsc::channel`. -/
structure MpscSender (α : Type) where
  chan : MpscChannel α
deriving DecidableEq, Repr

/-- The receiving half returned by `tokio::sync::mpsc::channel`. -/
structure MpscReceiver (α : Type) where
  chan : MpscChannel α
deriving DecidableEq, Repr

/-- `mpsc::channel(buffer)`: a fresh empty channel of the given capacity, with
its sending and receiving halves. -/
def mpsc_channel (α : Type) (buffer : Nat) : MpscSender α × MpscReceiver α :=
  (⟨⟨buffer, []⟩⟩, ⟨⟨buffer, []⟩⟩)

/-- `type ExitHandleSignal = mpsc::Sender<ExitStatus>;` -/
abbrev ExitHandleSignal := MpscSender ExitStatus

/-- `pub(crate) type ExitHandleWait = mpsc::Receiver<ExitStatus>;` -/
abbrev ExitHandleWait := MpscReceiver ExitStatus

/-- `pub fn exit_handle() -> (ExitHandleSignal, ExitHandleWait) {
mpsc::channel(1) }` of process.rs. -/
def exit_handle : ExitHandleSignal × ExitHandleWait :=
  mpsc_channel ExitStatus 1

end Northstar

namespace Nstar

/-- The fields of `northstar::api::model::Manifest` read by the table renderer
of pretty.rs: the container name, its version (only ever converted to a
string), and the optional `init` entry whose presence makes a container an
"App". -/
structure Manifest where
  name : String
  version : String
  init : Option String
deriving DecidableEq, Repr

/-- The process information of a running container read by pretty.rs: the pid
and the uptime in nanoseconds. -/
structure Process where
  pid : Nat
  uptime : Nat
deriving DecidableEq, Repr

/-- The fields of `northstar::api::model::Container` read by pretty.rs. -/
structure Container where
  manifest : Manifest
  repository : String
  process : Option Process
deriving DecidableEq, Repr

/-- The first sort key of the `containers` renderer:
`.sorted_by_key(|c| &c.manifest.name)`. -/
def nameLe (a b : Container) : Prop :=
  a.manifest.name ≤ b.manifest.name

/-- The second sort key of the `containers` renderer:
`.sorted_by_key(|c| c.manifest.init.is_none())` — `false < true`, so
containers with an `init` entry come first. -/
def initNoneLe (a b : Container) : Prop :=
  a.manifest.init.isNone ≤ b.manifest.init.isNone

instance : DecidableRel nameLe := fun a b =>
  inferInstanceAs (Decidable (a.manifest.name ≤ b.manifest.name))

instance : DecidableRel initNoneLe := fun a b =>
  inferInstanceAs (Decidable (a.manifest.init.isNone ≤ b.manifest.init.isNone))

instance : IsTotal Container nameLe :=
  ⟨fun a b => le_total a.manifest.name b.manifest.name⟩

instance : IsTrans Container nameLe :=
  ⟨fun _ _ _ h h2 => le_trans h h2⟩

instance : IsTotal Container initNoneLe :=
  ⟨fun a b => le_total a.manifest.init.isNone b.manifest.init.isNone⟩

instance : IsTrans Container initNoneLe :=
  ⟨fun _ _ _ h h2 => le_trans h h2⟩

/-- The iteration order of the `for container in ...` loop of `containers` in
pretty.rs: the input stably sorted by manifest name, then stably re-sorted by
`init.is_none()` (itertools' `sorted_by_key` is a stable sort; insertion sort
is used here as a stable sort). -/
def containersSorted (cs : List Container) : List Container :=
  (cs.insertionSort nameLe).insertionSort initNoneLe

/-- Debug formatting of `Duration::from_nanos`, external to the repository;
abstracted as the decimal nanosecond count. -/
def durationDebug (nanos : Nat) : String :=
  toString nanos

/-- The cells of one row added by `table.add_row` in `containers`, in column
order Name, Version, Repository, Type, PID, Uptime. -/
def containerRow (c : Container) : List String :=
  [c.manifest.name,
   c.manifest.version,
   c.repository,
   (c.manifest.init.map (fun _ => "App")).getD "Resource",
   (c.process.map (fun p => toString p.pid)).getD "",
   (c.process.map (fun p => durationDebug p.uptime)).getD ""]

/-- The rows of the table rendered by `containers` of pretty.rs, in order. -/
def containersTable (cs : List Container) : List (List String) :=
  (containersSorted cs).map containerRow

/-- The Type cell (fourth column) of a rendered row. -/
def typeCell (row : List String) : String :=
  row.getD 3 ""

/-- The Name cell (first column) of a rendered row. -/
def nameCell (row : List String) : String :=
  row.getD 0 ""

end Nstar

open Northstar Nstar

/-- A prefix of responses that all classify as `retry` is consumed by the wait
loop without any effect on its result. -/
theorem waitLoop_append_of_retry (ts rest : List WaitResult)
    (h : ∀ r ∈ ts, classify r = .retry) :
    waitLoop (ts ++ rest) = waitLoop rest := by
  induction ts with
  | nil => rfl
  | cons r ts ih =>
    have hr := h r (List.mem_cons_self r ts)
    have ih2 := ih fun x hx => h x (List.mem_cons_of_mem r hx)
    simp [waitLoop, hr, ih2]

/-- On a terminal status, the watcher attempts exactly two sends: first to the
exit handle (delivered iff the wait receiver is alive), then the exit event to
the global event channel, panicking if the event sink is gone. -/
theorem waitpid_trace (name : String) (pid : Nat) (env : WatcherEnv)
    (responses : List WaitResult) (s : ExitStatus)
    (h : waitLoop responses = .terminated s) :
    waitpid name pid env responses =
      ([.exitSend s env.waitReceiverAlive,
        .eventSend (.Exit name s) env.eventSinkAlive],
       if env.eventSinkAlive then .done else .panickedEvent) := by
  unfold waitpid
  rw [h]
  cases env.eventSinkAlive <;> simp

/-- C1: for any interleaving of transient kernel wait results followed by one
terminal result, the watcher loop retries through every transient result and
terminates with exactly the outcome classified from the final result. -/
theorem waitLoop_transient_then_terminal (ts : List WaitResult) (t : WaitResult)
    (s : ExitStatus) (h1 : ∀ r ∈ ts, classify r = .retry)
    (h2 : classify t = .terminal s) :
    waitLoop (ts ++ [t]) = .terminated s := by
  rw [waitLoop_append_of_retry ts [t] h1]
  simp [waitLoop, h2]

/-- Witness for C1: three stops, a continue and an EINTR are all retried, then
an exit with code 17 terminates the loop with `Exit 17`. -/
theorem waitLoop_transient_then_terminal_witness :
    (∀ r ∈ [(Except.ok (WaitStatus.Stopped 4242 19) : WaitResult),
        .ok (.Stopped 4242 19), .ok (.Stopped 4242 19), .ok (.Continued 4242),
        .error (.Sys EINTR)], classify r = .retry) ∧
      classify (.ok (.Exited 4242 17)) = .terminal (.Exit 17) ∧
      waitLoop ([(Except.ok (WaitStatus.Stopped 4242 19) : WaitResult),
          .ok (.Stopped 4242 19), .ok (.Stopped 4242 19), .ok (.Continued 4242),
          .error (.Sys EINTR)] ++ [.ok (.Exited 4242 17)]) =
        .terminated (.Exit 17) :=
  ⟨by decide, by decide,
    waitLoop_transient_then_terminal _ _ _ (by decide) (by decide)⟩

/-- C2: a run reaching a terminal outcome sends at most once to the exit
handle, exactly once to the global event channel, every exit-handle send
precedes every global-event send, and neither sink is delivered to twice. -/
theorem waitpid_delivery (name : String) (pid : Nat) (env : WatcherEnv)
    (responses : List WaitResult) (s : ExitStatus)
    (h : waitLoop responses = .terminated s) :
    (waitpid name pid env responses).1.countP (fun e => e.isExitSend) ≤ 1 ∧
    (waitpid name pid env responses).1.countP (fun e => e.isEventSend) = 1 ∧
    (waitpid name pid env responses).1.Pairwise
      (fun a b => a.isEventSend = true → b.isEventSend = true) ∧
    (waitpid name pid env responses).1.countP
      (fun e => e.isExitSend && e.isDelivered) ≤ 1 ∧
    (waitpid name pid env responses).1.countP
      (fun e => e.isEventSend && e.isDelivered) ≤ 1 ∧
    (∀ ev ∈ (waitpid name pid env responses).1, ev.outcome = s) := by
  rw [waitpid_trace name pid env responses s h]
  refine ⟨?_, ?_, ?_, ?_, ?_, ?_⟩ <;>
    simp [List.countP_cons, SendEvent.isExitSend, SendEvent.isEventSend,
      SendEvent.isDelivered, SendEvent.outcome, List.pairwise_cons] <;>
    split <;> simp

/-- Witness for C2 at a single exit response with both receivers alive. -/
theorem waitpid_delivery_witness :
    waitLoop [(Except.ok (WaitStatus.Exited 4242 0) : WaitResult)] =
        .terminated (.Exit 0) ∧
      ((waitpid "c" 4242 ⟨true, true⟩
            [(Except.ok (WaitStatus.Exited 4242 0) : WaitResult)]).1.countP
          (fun e => e.isExitSend) ≤ 1 ∧
        (waitpid "c" 4242 ⟨true, true⟩
            [(Except.ok (WaitStatus.Exited 4242 0) : WaitResult)]).1.countP
          (fun e => e.isEventSend) = 1 ∧
        (waitpid "c" 4242 ⟨true, true⟩
            [(Except.ok (WaitStatus.Exited 4242 0) : WaitResult)]).1.Pairwise
          (fun a b => a.isEventSend = true → b.isEventSend = true) ∧
        (waitpid "c" 4242 ⟨true, true⟩
            [(Except.ok (WaitStatus.Exited 4242 0) : WaitResult)]).1.countP
          (fun e => e.isExitSend && e.isDelivered) ≤ 1 ∧
        (waitpid "c" 4242 ⟨true, true⟩
            [(Except.ok (WaitStatus.Exited 4242 0) : WaitResult)]).1.countP
          (fun e => e.isEventSend && e.isDelivered) ≤ 1 ∧
        (∀ ev ∈ (waitpid "c" 4242 ⟨true, true⟩
            [(Except.ok (WaitStatus.Exited 4242 0) : WaitResult)]).1,
          ev.outcome = .Exit 0)) :=
  ⟨by decide, waitpid_delivery "c" 4242 ⟨true, true⟩ _ (.Exit 0) (by decide)⟩

/-- C3: a wait failure other than EINTR (after any transient results) makes the
watcher panic at the wait site without attempting any send to either sink. -/
theorem waitpid_fatal_aborts (name : String) (pid : Nat) (env : WatcherEnv)
    (ts : List WaitResult) (e : NixError)
    (h1 : ∀ r ∈ ts, classify r = .retry) (h2 : e ≠ .Sys EINTR) :
    waitpid name pid env (ts ++ [.error e]) =
      ([], .panickedWait (pid_from_raw pid) e) := by
  have hcl : classify (.error e) = .fatal e := by simp [classify, h2]
  have hloop : waitLoop (ts ++ [.error e]) = .panicked e := by
    rw [waitLoop_append_of_retry ts _ h1]
    simp [waitLoop, hcl]
  unfold waitpid
  rw [hloop]

/-- Witness for C3: one still-alive result, then an ECHILD failure. -/
theorem waitpid_fatal_aborts_witness :
    (∀ r ∈ [(Except.ok WaitStatus.StillAlive : WaitResult)],
        classify r = .retry) ∧
      NixError.Sys 10 ≠ NixError.Sys EINTR ∧
      waitpid "c" 4242 ⟨true, true⟩
          ([(Except.ok WaitStatus.StillAlive : WaitResult)] ++
            [.error (.Sys 10)]) =
        ([], .panickedWait (pid_from_raw 4242) (.Sys 10)) :=
  ⟨by decide, by decide,
    waitpid_fatal_aborts "c" 4242 ⟨true, true⟩ _ _ (by decide) (by decide)⟩

/-- C4: if the global event sink is gone when the terminal outcome is sent,
the watcher panics at the event-send site instead of completing. -/
theorem waitpid_event_sink_gone (name : String) (pid : Nat) (wr : Bool)
    (responses : List WaitResult) (s : ExitStatus)
    (h : waitLoop responses = .terminated s) :
    (waitpid name pid ⟨wr, false⟩ responses).2 = .panickedEvent := by
  rw [waitpid_trace name pid ⟨wr, false⟩ responses s h]
  rfl

/-- Witness for C4 at a single exit response. -/
theorem waitpid_event_sink_gone_witness :
    waitLoop [(Except.ok (WaitStatus.Exited 4242 0) : WaitResult)] =
        .terminated (.Exit 0) ∧
      (waitpid "c" 4242 ⟨true, false⟩
          [(Except.ok (WaitStatus.Exited 4242 0) : WaitResult)]).2 =
        .panickedEvent :=
  ⟨by decide,
    waitpid_event_sink_gone "c" 4242 true _ (.Exit 0) (by decide)⟩

/-- C5: with the exit handle's receiving half already dropped, the watcher
still completes without panicking and its sends to the global event channel
are identical to a run with the receiver alive. -/
theorem waitpid_wait_dropped (name : String) (pid : Nat)
    (responses : List WaitResult) (s : ExitStatus)
    (h : waitLoop responses = .terminated s) :
    (waitpid name pid ⟨false, true⟩ responses).2 = .done ∧
    (waitpid name pid ⟨false, true⟩ responses).1.filter
        (fun e => e.isEventSend) =
      (waitpid name pid ⟨true, true⟩ responses).1.filter
        (fun e => e.isEventSend) := by
  rw [waitpid_trace name pid ⟨false, true⟩ responses s h,
    waitpid_trace name pid ⟨true, true⟩ responses s h]
  constructor <;> simp [SendEvent.isEventSend]

/-- Witness for C5 at a single exit response. -/
theorem waitpid_wait_dropped_witness :
    waitLoop [(Except.ok (WaitStatus.Exited 4242 0) : WaitResult)] =
        .terminated (.Exit 0) ∧
      ((waitpid "c" 4242 ⟨false, true⟩
            [(Except.ok (WaitStatus.Exited 4242 0) : WaitResult)]).2 = .done ∧
        (waitpid "c" 4242 ⟨false, true⟩
            [(Except.ok (WaitStatus.Exited 4242 0) : WaitResult)]).1.filter
            (fun e => e.isEventSend) =
          (waitpid "c" 4242 ⟨true, true⟩
              [(Except.ok (WaitStatus.Exited 4242 0) : WaitResult)]).1.filter
            (fun e => e.isEventSend)) :=
  ⟨by decide, waitpid_wait_dropped "c" 4242 _ (.Exit 0) (by decide)⟩

/-- C6: a normal exit with status code `code` is classified as `Exit code` and
emitted to both sinks, exit handle first. -/
theorem waitpid_exited (name : String) (pid : Nat) (p code : Int) :
    waitpid name pid ⟨true, true⟩ [.ok (.Exited p code)] =
      ([.exitSend (.Exit code) true,
        .eventSend (.Exit name (.Exit code)) true], .done) := by
  simp [waitpid, waitLoop, classify]

/-- C7: a termination by signal `sig` is classified as `Signaled sig`
regardless of the core-dump flag and emitted to both sinks, exit handle
first. -/
theorem waitpid_signaled (name : String) (pid : Nat) (p : Int) (sig : Signal)
    (dump : Bool) :
    waitpid name pid ⟨true, true⟩ [.ok (.Signaled p sig dump)] =
      ([.exitSend (.Signaled sig) true,
        .eventSend (.Exit name (.Signaled sig)) true], .done) := by
  simp [waitpid, waitLoop, classify]

/-- C8: `exit_handle` returns a fresh sender/receiver pair over one empty
channel of capacity exactly one. -/
theorem exit_handle_capacity_one :
    exit_handle.1.chan.capacity = 1 ∧ exit_handle.2.chan.capacity = 1 ∧
    exit_handle.1.chan.buffer = [] ∧ exit_handle.2.chan.buffer = [] ∧
    exit_handle.1.chan = exit_handle.2.chan :=
  ⟨rfl, rfl, rfl, rfl, rfl⟩

/-- C9: the `pid as i32` conversion is reduction modulo `2 ^ 32` into the
signed 32-bit range: pids up to `2 ^ 31 - 1` are preserved, and pids of
`2 ^ 31` or more become the negative value `pid - 2 ^ 32`. -/
theorem pid_from_raw_cast (pid : Nat) (h : pid < 2 ^ 32) :
    (pid ≤ 2147483647 → pid_from_raw pid = (pid : Int)) ∧
    (2 ^ 31 ≤ pid →
      pid_from_raw pid = (pid : Int) - 2 ^ 32 ∧ pid_from_raw pid < 0) := by
  have hm : pid % 2 ^ 32 = pid := Nat.mod_eq_of_lt h
  simp only [pid_from_raw, hm]
  constructor
  · intro hle
    rw [if_pos (by omega)]
  · intro hge
    rw [if_neg (by omega)]
    exact ⟨rfl, by omega⟩

/-- Witness for C9 at pid 3000000000, which exceeds `2 ^ 31`. -/
theorem pid_from_raw_cast_witness :
    3000000000 < 2 ^ 32 ∧
      ((3000000000 ≤ 2147483647 →
          pid_from_raw 3000000000 = (3000000000 : Int)) ∧
        (2 ^ 31 ≤ 3000000000 →
          pid_from_raw 3000000000 = (3000000000 : Int) - 2 ^ 32 ∧
            pid_from_raw 3000000000 < 0)) :=
  ⟨by norm_num, pid_from_raw_cast 3000000000 (by norm_num)⟩

/-- Stable insertion of `x` by relation `r` into a list pairwise ordered by
`r` with `r`-ties ordered by `q`, when `x` is `q`-below every element already
present, preserves that pairwise ordering. -/
theorem pairwise_orderedInsert_lex {α : Type} (r q : α → α → Prop)
    [DecidableRel r] (total : ∀ a b, r a b ∨ r b a)
    (trans : ∀ a b c, r a b → r b c → r a c) (x : α) :
    ∀ l : List α, l.Pairwise (fun a b => r a b ∧ (r b a → q a b)) →
      (∀ y ∈ l, q x y) →
      (l.orderedInsert r x).Pairwise (fun a b => r a b ∧ (r b a → q a b))
  | [], _, _ => List.pairwise_singleton _ _
  | y :: ys, hl, hx => by
    rw [List.orderedInsert]
    by_cases hxy : r x y
    · rw [if_pos hxy]
      refine List.Pairwise.cons ?_ hl
      intro z hz
      rcases List.mem_cons.mp hz with rfl | hz2
      · exact ⟨hxy, fun _ => hx z (List.mem_cons_self _ _)⟩
      · have hyz := (List.rel_of_pairwise_cons hl hz2).1
        exact ⟨trans _ _ _ hxy hyz, fun _ => hx z (List.mem_cons_of_mem _ hz2)⟩
    · rw [if_neg hxy]
      refine List.Pairwise.cons ?_
        (pairwise_orderedInsert_lex r q total trans x ys hl.of_cons
          (fun z hz => hx z (List.mem_cons_of_mem _ hz)))
      intro z hz
      rcases (List.mem_orderedInsert r).mp hz with rfl | hz2
      · exact ⟨(total z y).resolve_left hxy, fun hxy2 => absurd hxy2 hxy⟩
      · exact List.rel_of_pairwise_cons hl hz2

/-- Insertion sort by `r` of a list pairwise ordered by `q` is pairwise
ordered by `r` with `r`-ties still ordered by `q` (stability of the sort). -/
theorem pairwise_insertionSort_lex {α : Type} (r q : α → α → Prop)
    [DecidableRel r] (total : ∀ a b, r a b ∨ r b a)
    (trans : ∀ a b c, r a b → r b c → r a c) :
    ∀ l : List α, l.Pairwise q →
      (l.insertionSort r).Pairwise (fun a b => r a b ∧ (r b a → q a b))
  | [], _ => List.Pairwise.nil
  | a :: l, hl => by
    rw [List.insertionSort]
    refine pairwise_orderedInsert_lex r q total trans a _
      (pairwise_insertionSort_lex r q total trans l hl.of_cons) ?_
    intro y hy
    exact List.rel_of_pairwise_cons hl ((List.perm_insertionSort r l).mem_iff.mp hy)

/-- The Type cell of a rendered row is the fourth cell of `containerRow`. -/
theorem typeCell_containerRow (c : Container) :
    typeCell (containerRow c) = (c.manifest.init.map (fun _ => "App")).getD "Resource" :=
  rfl

/-- The Name cell of a rendered row is the manifest name. -/
theorem nameCell_containerRow (c : Container) :
    nameCell (containerRow c) = c.manifest.name :=
  rfl

/-- A rendered row shows "App" exactly when the manifest has an `init`
entry. -/
theorem typeCell_eq_app (c : Container) :
    typeCell (containerRow c) = "App" ↔ c.manifest.init.isNone = false := by
  rw [typeCell_containerRow]
  cases h : c.manifest.init with
  | none => decide
  | some v => simp

/-- C10: every row rendered by `containers` with Type "App" precedes every row
with Type "Resource", and rows of equal Type are ordered by ascending Name. -/
theorem containers_table_order (cs : List Container) :
    (containersTable cs).Pairwise (fun ra rb =>
      (typeCell rb = "App" → typeCell ra = "App") ∧
      (typeCell ra = typeCell rb → nameCell ra ≤ nameCell rb)) := by
  have h1 : (cs.insertionSort nameLe).Pairwise nameLe :=
    List.sorted_insertionSort nameLe cs
  have h2 : (containersSorted cs).Pairwise
      (fun a b => initNoneLe a b ∧ (initNoneLe b a → nameLe a b)) :=
    pairwise_insertionSort_lex initNoneLe nameLe
      (fun a b => le_total a.manifest.init.isNone b.manifest.init.isNone)
      (fun _ _ _ hab hbc => le_trans hab hbc)
      (cs.insertionSort nameLe) h1
  rw [containersTable, List.pairwise_map]
  refine h2.imp ?_
  intro a b hab
  obtain ⟨hr, hq⟩ := hab
  constructor
  · intro hb
    rw [typeCell_eq_app] at hb ⊢
    have hr2 : a.manifest.init.isNone ≤ b.manifest.init.isNone := hr
    rw [hb] at hr2
    cases ha2 : a.manifest.init.isNone
    · rfl
    · rw [ha2] at hr2
      exact absurd hr2 (by decide)
  · intro htype
    rw [nameCell_containerRow, nameCell_containerRow]
    have heq : a.manifest.init.isNone = b.manifest.init.isNone := by
      cases ha2 : a.manifest.init.isNone <;> cases hb2 : b.manifest.init.isNone
      · rfl
      · have ha3 : typeCell (containerRow a) = "App" := (typeCell_eq_app a).mpr ha2
        have hb3 : ¬ typeCell (containerRow b) = "App" := by
          simp [typeCell_eq_app, hb2]
        rw [htype] at ha3
        exact absurd ha3 hb3
      · have hr2 : a.manifest.init.isNone ≤ b.manifest.init.isNone := hr
        rw [ha2, hb2] at hr2
        exact absurd hr2 (by decide)
      · rfl
    have hba : initNoneLe b a := by
      show b.manifest.init.isNone ≤ a.manifest.init.isNone
      rw [heq]
    exact hq hba
